import Mathlib

/-!
# VideoLingo — Progress & Engagement State Engine, shallow embedding

Shallow embedding in Lean 4 of the gamification, unlock-gating, scoring and
session-tracking logic of the VideoLingo study app, together with theorems
settling the specification claims.

Conventions of the embedding:
* The Supabase store is modelled by explicit state values (an optional row per
  participant); each TypeScript function becomes a pure state transformer.
* JavaScript numbers that hold counts, hearts, XP or epoch milliseconds are
  modelled as `Int` (so `max(0, h - 1)` and negative day differences are
  meaningful); nullable columns are `Option Int`.
* JavaScript falsy-coalescing `x || d` on a numeric column is modelled
  faithfully: both `null` and `0` fall back to the default `d`.
* Day labels (the `YYYY-MM-DD` strings produced by `toISOString`) are modelled
  as integers counting days since the epoch; string equality of labels is
  integer equality.  The host runtime is modelled with
  `getTimezoneOffset() = 0` (a UTC host), so `utc = now.getTime()` in
  `getESTDate`.
-/

/-! ## Gamification data model (src gamification utilities)

The `user_gamification` table row, as selected by `getGamificationData`:
columns `xp`, `hearts`, `streak_days`, `last_activity_date`, each nullable. -/

structure GamRow where
  xp : Option Int
  hearts : Option Int
  streak_days : Option Int
  last_activity_date : Option Int
  deriving Repr, DecidableEq

/-- The in-memory `GamificationData` interface returned by
`getGamificationData`. -/
structure GamificationData where
  xp : Int
  hearts : Int
  streakDays : Int
  lastActivityDate : Option Int
  deriving Repr, DecidableEq

/-- JavaScript `v || d` on a nullable numeric column: `null` and `0` are
falsy and fall back to `d`. -/
def jsOr (v : Option Int) (d : Int) : Int :=
  match v with
  | none => d
  | some x => if x = 0 then d else x

/-- `getGamificationData`: reads the row and coalesces each column
(`xp || 0`, `hearts || 20`, `streak_days || 0`, `last_activity_date || null`).
A missing row yields `null`. -/
def getGamificationData (row : Option GamRow) : Option GamificationData :=
  match row with
  | none => none
  | some r =>
    some { xp := jsOr r.xp 0
           hearts := jsOr r.hearts 20
           streakDays := jsOr r.streak_days 0
           lastActivityDate := r.last_activity_date }

/-- `updateHearts`: upsert of the `hearts` column only (other columns of an
existing row are kept; a fresh row has the remaining columns null). -/
def updateHearts (row : Option GamRow) (h : Int) : Option GamRow :=
  match row with
  | none => some { xp := none, hearts := some h, streak_days := none, last_activity_date := none }
  | some r => some { r with hearts := some h }

/-- The heart-deduction closure of `handleCheck` in the gamified quiz: read the
record through `getGamificationData`, then write `max(0, hearts - 1)` via
`updateHearts`; no record means no write. -/
def deductHeart (row : Option GamRow) : Option GamRow :=
  match getGamificationData row with
  | none => row
  | some cur => updateHearts row (max 0 (cur.hearts - 1))

/-- `deductHeart` iterated `n` times. -/
def deductIter : Nat → Option GamRow → Option GamRow
  | 0, row => row
  | n + 1, row => deductIter n (deductHeart row)

/-- The stored `hearts` column of a row, when present. -/
def storedHearts (row : Option GamRow) : Option Int :=
  match row with
  | none => none
  | some r => r.hearts

/-! ## Scoring engine (`calculateStars`, `calculateXP`) -/

/-- `calculateStars`: 3 for a perfect 10/10, 2 for 7–9 correct, else 1. -/
def calculateStars (correct total : Int) : Int :=
  if correct = 10 ∧ total = 10 then 3
  else if 7 ≤ correct ∧ correct ≤ 9 then 2
  else 1

/-- `calculateXP`: 5 XP per correct answer, +10 for 8 or more correct,
+20 more for a perfect 10/10. -/
def calculateXP (correct total : Int) : Int :=
  let xp := correct * 5
  let xp := if 8 ≤ correct then xp + 10 else xp
  let xp := if correct = 10 ∧ total = 10 then xp + 20 else xp
  xp

/-- C8 (part): the XP formula the spec states, written as a sum. -/
theorem calculateXP_formula (correct total : Int) :
    calculateXP correct total =
      correct * 5 + (if 8 ≤ correct then 10 else 0)
        + (if correct = 10 ∧ total = 10 then 20 else 0) := by
  unfold calculateXP
  by_cases h8 : 8 ≤ correct <;> by_cases hp : correct = 10 ∧ total = 10 <;>
    simp [h8, hp]

/-- C8: concrete star and XP values, and the closed-form XP formula:
`stars(10,10)=3`, `stars(7,10)=stars(9,10)=2`, `stars(0,10)=stars(6,10)=1`;
`xp(10,10)=80`, `xp(8,10)=50`, `xp(5,10)=25`; and for all inputs
`xp(c,t) = c*5 + (10 if c ≥ 8) + (20 if c = 10 and t = 10)`. -/
theorem claim_C8_scoring :
    calculateStars 10 10 = 3 ∧ calculateStars 7 10 = 2 ∧ calculateStars 9 10 = 2 ∧
    calculateStars 0 10 = 1 ∧ calculateStars 6 10 = 1 ∧
    calculateXP 10 10 = 80 ∧ calculateXP 8 10 = 50 ∧ calculateXP 5 10 = 25 ∧
    (∀ correct total : Int,
      calculateXP correct total =
        correct * 5 + (if 8 ≤ correct then 10 else 0)
          + (if correct = 10 ∧ total = 10 then 20 else 0)) := by
  refine ⟨by decide, by decide, by decide, by decide, by decide,
    by decide, by decide, by decide, ?_⟩
  exact calculateXP_formula

/-! ## Clock / day boundary (`getESTDate`) -/

/-- `getESTDate`, as a function of the instant `t` in epoch milliseconds
(UTC host, so `utc = now.getTime()`): shift to the reference offset UTC−5,
read hour and minute there, and if the local time is 23:59 or later move to
the next calendar day; the result is the day label (days since epoch) that
`toISOString().split('T')[0]` would produce. -/
def getESTDate (t : Int) : Int :=
  let est := t - 5 * 3600000
  let hours := (est.fdiv 3600000).emod 24
  let minutes := (est.fdiv 60000).emod 60
  let day := est.fdiv 86400000
  if hours = 23 ∧ 59 ≤ minutes then day + 1 else day

/-- Calendar day (days since epoch) of instant `t` at reference offset UTC−5.
Spec-side characterisation used to state C4. -/
def refDay (t : Int) : Int := (t - 5 * 3600000).fdiv 86400000

/-- Hour of instant `t` at reference offset UTC−5. -/
def refHour (t : Int) : Int := ((t - 5 * 3600000).fdiv 3600000).emod 24

/-- Minute of instant `t` at reference offset UTC−5. -/
def refMinute (t : Int) : Int := ((t - 5 * 3600000).fdiv 60000).emod 60

/-! ## Hearts reset and streak update -/

/-- `shouldResetHearts`: true when no last-activity date is stored, or the
stored day label differs from today's label (`todayEST !== lastResetEST`).
`today` is the label `getESTDate` produced for the current instant. -/
def shouldResetHearts (lastResetDate : Option Int) (today : Int) : Bool :=
  match lastResetDate with
  | none => true
  | some d => today ≠ d

/-- `checkAndResetDailyHearts`: load the record; if `shouldResetHearts` holds
for its `lastActivityDate`, write `hearts := 20`.  Note the write touches only
the `hearts` column; `last_activity_date` is left unchanged. -/
def checkAndResetDailyHearts (today : Int) (row : Option GamRow) : Option GamRow :=
  match getGamificationData row with
  | none => row
  | some cur =>
    if shouldResetHearts cur.lastActivityDate today then
      updateHearts row 20
    else row

/-- Whether a call to `checkAndResetDailyHearts` issues the `hearts := 20`
store write (the condition guarding its `updateGamificationData` call). -/
def heartsResetFires (today : Int) (row : Option GamRow) : Bool :=
  match getGamificationData row with
  | none => false
  | some cur => shouldResetHearts cur.lastActivityDate today

/-- The streak-branch write of `updateStreak`: upsert of `streak_days` and
`last_activity_date` on the existing row. -/
def writeStreak (r : GamRow) (s : Int) (today : Int) : Option GamRow :=
  some { r with streak_days := some s, last_activity_date := some today }

/-- `updateStreak`: create the record with streak 1 when absent; heal a zero
or date-less streak to 1; otherwise compare today's label with the stored one:
same day returns without writing, a one-day gap increments the streak, any
other gap resets it to 1.  Every writing branch stamps
`last_activity_date := today`. -/
def updateStreak (today : Int) (row : Option GamRow) : Option GamRow :=
  match row with
  | none =>
    some { xp := some 0, hearts := some 20, streak_days := some 1,
           last_activity_date := some today }
  | some r =>
    let cur := { xp := jsOr r.xp 0, hearts := jsOr r.hearts 20,
                 streakDays := jsOr r.streak_days 0,
                 lastActivityDate := r.last_activity_date : GamificationData }
    if cur.streakDays = 0 then
      writeStreak r 1 today
    else
      match cur.lastActivityDate with
      | none => writeStreak r 1 today
      | some last =>
        let diffDays := today - last
        if diffDays = 0 then some r
        else if diffDays = 1 then writeStreak r (cur.streakDays + 1) today
        else writeStreak r 1 today

/-- `checkStreakOnLogin`: reset hearts for the new day first, then update the
streak. -/
def checkStreakOnLogin (today : Int) (row : Option GamRow) : Option GamRow :=
  updateStreak today (checkAndResetDailyHearts today row)

/-- `canUserPlay`: allow when no record exists; otherwise run the daily reset,
re-read, and require `hearts > 0` (with the `updated?.hearts || 0` fallback). -/
def canUserPlay (today : Int) (row : Option GamRow) : Bool :=
  match getGamificationData row with
  | none => true
  | some _ =>
    let row2 := checkAndResetDailyHearts today row
    match getGamificationData row2 with
    | none => decide ((0 : Int) > 0)
    | some upd => decide (jsOr (some upd.hearts) 0 > 0)

/-- The stored `streak_days` column of a row, with the `|| 0` read fallback. -/
def storedStreak (row : Option GamRow) : Int :=
  match row with
  | none => 0
  | some r => jsOr r.streak_days 0

/-! ## Unlock gate (`isVideoUnlocked`) -/

/-- `isVideoUnlocked` (pure core, the participant's progress read inlined as
`completed`): index 0 is always unlocked; with no completed videos the result
is false; an index strictly between 0 and the catalog length is unlocked iff
the previous video's id is among the completed ones; any other index falls
through to `false`. -/
def isVideoUnlocked (completed : List String) (videoIndex : Int)
    (allVideoIds : List String) : Bool :=
  if videoIndex = 0 then true
  else if completed.length = 0 then false
  else if 0 < videoIndex ∧ videoIndex < (allVideoIds.length : Int) then
    match allVideoIds.get? (videoIndex - 1).toNat with
    | some previousVideoId => completed.contains previousVideoId
    | none => false
  else false

/-! ## Progress persistence (`saveVideoStars`, `markVideoCompleted`) -/

/-- A JSON object mapping video ids to integers (`video_stars`,
`video_scores`), as an association list. -/
def lookupScore (m : List (String × Int)) (videoId : String) : Int :=
  match m.find? (fun p => p.1 = videoId) with
  | some p => p.2
  | none => 0

/-- `obj[key] = v` on such a map: overwrite the existing entry, else append. -/
def setScore (m : List (String × Int)) (videoId : String) (v : Int) :
    List (String × Int) :=
  if (m.find? (fun p => p.1 = videoId)).isSome then
    m.map (fun p => if p.1 = videoId then (videoId, v) else p)
  else m ++ [(videoId, v)]

/-- `saveVideoStars` (store state inlined as the `video_stars` map): the new
star count is written only when strictly greater than the stored one
(`currentStars[videoId] || 0`). -/
def saveVideoStars (videoStars : List (String × Int)) (videoId : String)
    (stars : Int) : List (String × Int) :=
  if stars > lookupScore videoStars videoId then
    setScore videoStars videoId stars
  else videoStars

/-- The `user_progress` record: completed video ids and best scores. -/
structure UserProgress where
  completedVideos : List String
  videoScores : List (String × Int)
  deriving Repr, DecidableEq

/-- `markVideoCompleted`: add the video to `completedVideos` if absent, and
overwrite its best score only when the new score is strictly greater. -/
def markVideoCompleted (progress : UserProgress) (videoId : String)
    (score : Int) : UserProgress :=
  let completed :=
    if progress.completedVideos.contains videoId then progress.completedVideos
    else progress.completedVideos ++ [videoId]
  let scores :=
    if score > lookupScore progress.videoScores videoId then
      setScore progress.videoScores videoId score
    else progress.videoScores
  { completedVideos := completed, videoScores := scores }

/-! ## Session tracker (`startSession` / `endSession`) -/

/-- A `sessions` row. -/
structure SessionRow where
  id : Nat
  startedAt : Int
  endedAt : Option Int
  durationMs : Option Int
  endedReason : Option String
  deriving Repr, DecidableEq

/-- The tracker's module state: the stored session rows plus the process-wide
`currentSessionId` / `sessionStartTime` pointers. -/
structure TrackerState where
  sessions : List SessionRow
  currentSessionId : Option Nat
  sessionStartTime : Option Int
  deriving Repr, DecidableEq

/-- The tracker before any session has been started. -/
def emptyTracker : TrackerState :=
  { sessions := [], currentSessionId := none, sessionStartTime := none }

/-- `startSession` at instant `t`: insert a session row with
`started_at := t`, remember the generated id as current, and record `t` as
`sessionStartTime`.  Generated ids are modelled as the row count at insert
time (fresh, since rows are never deleted). -/
def startSession (t : Int) (s : TrackerState) : TrackerState :=
  let id := s.sessions.length
  { sessions := s.sessions ++
      [{ id := id, startedAt := t, endedAt := none, durationMs := none,
         endedReason := none }]
    currentSessionId := some id
    sessionStartTime := some t }

/-- `endSession reason` at instant `t`: a no-op when no session is current;
otherwise update the current row with `ended_at := t`,
`duration_ms := t − sessionStartTime` (null when no start time is cached) and
the supplied reason, then clear both pointers. -/
def endSession (reason : String) (t : Int) (s : TrackerState) : TrackerState :=
  match s.currentSessionId with
  | none => s
  | some sid =>
    let dur := match s.sessionStartTime with
      | some st => some (t - st)
      | none => none
    { sessions := s.sessions.map (fun r =>
        if r.id = sid then
          { r with endedAt := some t, durationMs := dur,
                   endedReason := some reason }
        else r)
      currentSessionId := none
      sessionStartTime := none }

/-! ## Claim theorems -/

/-- C4: every instant whose UTC−5 local time is 23:59 or later is labelled
with the next calendar day by `getESTDate`; every other instant keeps its own
UTC−5 calendar day label. -/
theorem claim_C4_day_rollover (t : Int) :
    (refHour t = 23 ∧ 59 ≤ refMinute t → getESTDate t = refDay t + 1) ∧
    (¬(refHour t = 23 ∧ 59 ≤ refMinute t) → getESTDate t = refDay t) := by
  constructor <;> intro h <;>
    simp only [getESTDate, refDay, refHour, refMinute] at h ⊢
  · rw [if_pos h]
  · rw [if_neg h]

/-- Witness for C4: 04:59:00 UTC on the epoch day is 23:59 of the previous
UTC−5 day, so it is labelled day 0, one past its own day −1; one minute
earlier the label is the instant's own day −1. -/
theorem claim_C4_day_rollover_witness :
    (refHour 17940000 = 23 ∧ 59 ≤ refMinute 17940000) ∧
      getESTDate 17940000 = refDay 17940000 + 1 ∧
      getESTDate 17880000 = refDay 17880000 := by
  refine ⟨by decide, (claim_C4_day_rollover 17940000).1 (by decide),
    (claim_C4_day_rollover 17880000).2 (by decide)⟩

/-- C5: index 0 is always unlocked; an in-range index `i > 0` is unlocked iff
the id at index `i − 1` is among the completed videos; with nothing completed
every index `i > 0` is locked. -/
theorem claim_C5_unlock (completed allVideoIds : List String) (i : Int) :
    isVideoUnlocked completed 0 allVideoIds = true ∧
    (0 < i → i < (allVideoIds.length : Int) →
      ∀ prev, allVideoIds.get? (i - 1).toNat = some prev →
        (isVideoUnlocked completed i allVideoIds = true ↔ prev ∈ completed)) ∧
    (completed = [] → 0 < i → isVideoUnlocked completed i allVideoIds = false) := by
  refine ⟨by simp [isVideoUnlocked], ?_, ?_⟩
  · intro hpos hlt prev hprev
    have hne : i ≠ 0 := by omega
    rcases h0 : completed with _ | ⟨c, cs⟩
    · simp [isVideoUnlocked, hne, hprev]
    · simp only [isVideoUnlocked, if_neg hne, List.length_cons]
      rw [if_neg (by simp), if_pos ⟨hpos, hlt⟩, hprev]
      simp [← h0]
  · intro hemp hpos
    have hne : i ≠ 0 := by omega
    simp [isVideoUnlocked, hemp, hne]

/-- Witness for C5: with catalog `["a", "b"]`, index 0 is unlocked, index 1 is
unlocked exactly when `"a"` has been completed, and with nothing completed
index 1 is locked. -/
theorem claim_C5_unlock_witness :
    isVideoUnlocked ["a"] 0 ["a", "b"] = true ∧
    (isVideoUnlocked ["a"] 1 ["a", "b"] = true ↔ "a" ∈ ["a"]) ∧
    isVideoUnlocked [] 1 ["a", "b"] = false := by
  refine ⟨(claim_C5_unlock ["a"] ["a", "b"] 1).1,
    (claim_C5_unlock ["a"] ["a", "b"] 1).2.1 (by decide) (by decide) "a" (by decide),
    (claim_C5_unlock [] ["a", "b"] 1).2.2 rfl (by decide)⟩

/-- C6 counterexample: an out-of-range index does not signal any error — the
unlock query totals out to the ordinary boolean `false`, both past the end of
the catalog and at a negative index. -/
theorem claim_C6_counterexample :
    isVideoUnlocked ["a"] 5 ["a", "b"] = false ∧
    isVideoUnlocked ["a"] 2 ["a", "b"] = false ∧
    isVideoUnlocked ["a"] (-1) ["a", "b"] = false := by
  decide

/-- C6 (amended): an out-of-range index (`i ≥ |catalog|` or `i < 0`) other
than 0 makes the unlock query return the ordinary boolean `false` (locked);
no error is signalled, and index 0 returns `true` even on an empty catalog. -/
theorem claim_C6_out_of_range (completed allVideoIds : List String) (i : Int) :
    (i ≠ 0 → (allVideoIds.length : Int) ≤ i ∨ i < 0 →
      isVideoUnlocked completed i allVideoIds = false) ∧
    isVideoUnlocked completed 0 [] = true := by
  refine ⟨?_, by simp [isVideoUnlocked]⟩
  intro hne hout
  rcases h0 : completed with _ | ⟨c, cs⟩
  · simp [isVideoUnlocked, hne]
  · simp only [isVideoUnlocked, if_neg hne, List.length_cons]
    rw [if_neg (by simp), if_neg (by omega)]

/-- Witness for C6 (amended): index 5 on a two-video catalog is locked, and
index 0 on an empty catalog is unlocked. -/
theorem claim_C6_out_of_range_witness :
    isVideoUnlocked ["a"] 5 ["a", "b"] = false ∧
    isVideoUnlocked ["a"] 0 [] = true :=
  ⟨(claim_C6_out_of_range ["a"] ["a", "b"] 5).1 (by decide) (Or.inl (by decide)),
   (claim_C6_out_of_range ["a"] [] 5).2⟩

/-- Writing a key of an association-list map makes its lookup return the
written value. -/
theorem lookupScore_setScore (m : List (String × Int)) (k : String) (v : Int) :
    lookupScore (setScore m k v) k = v := by
  rw [setScore]
  split
  case isTrue hfound =>
    induction m with
    | nil => simp at hfound
    | cons p m ih =>
      by_cases hk : p.1 = k
      · simp [lookupScore, List.find?, hk]
      · rw [List.find?_cons_of_neg _ (by simp [hk])] at hfound
        simpa [lookupScore, List.find?, hk] using ih hfound
  case isFalse hfound =>
    induction m with
    | nil => simp [lookupScore, List.find?]
    | cons p m ih =>
      by_cases hk : p.1 = k
      · rw [List.find?_cons_of_pos _ (by simp [hk])] at hfound
        simp at hfound
      · rw [List.find?_cons_of_neg _ (by simp [hk])] at hfound
        simpa [lookupScore, List.find?, hk] using ih hfound

/-- C7: star and score persistence are monotonic.  A save with a value not
above the stored one leaves the map untouched; a strictly greater value
becomes the new stored value; concretely, saving 2 stars then 1 star leaves
the stored value at 2; and `markVideoCompleted` behaves the same way for the
best correct-count. -/
theorem claim_C7_monotonic :
    (∀ (m : List (String × Int)) (v : String) (s : Int),
      s ≤ lookupScore m v → saveVideoStars m v s = m) ∧
    (∀ (m : List (String × Int)) (v : String) (s : Int),
      lookupScore m v < s → lookupScore (saveVideoStars m v s) v = s) ∧
    lookupScore (saveVideoStars (saveVideoStars [] "u" 2) "u" 1) "u" = 2 ∧
    (∀ (p : UserProgress) (v : String) (sc : Int),
      sc ≤ lookupScore p.videoScores v →
        (markVideoCompleted p v sc).videoScores = p.videoScores) ∧
    (∀ (p : UserProgress) (v : String) (sc : Int),
      lookupScore p.videoScores v < sc →
        lookupScore (markVideoCompleted p v sc).videoScores v = sc) := by
  refine ⟨?_, ?_, by decide, ?_, ?_⟩
  · intro m v s hle
    rw [saveVideoStars, if_neg (by omega)]
  · intro m v s hgt
    rw [saveVideoStars, if_pos (by omega), lookupScore_setScore]
  · intro p v sc hle
    rw [markVideoCompleted]
    simp only
    rw [if_neg (by omega)]
  · intro p v sc hgt
    rw [markVideoCompleted]
    simp only
    rw [if_pos (by omega), lookupScore_setScore]

/-- Witness for C7: a stored value of 2 survives an attempted save of 1, both
for stars and for best scores, and a save of 3 overwrites it. -/
theorem claim_C7_monotonic_witness :
    saveVideoStars [("u", 2)] "u" 1 = [("u", 2)] ∧
    lookupScore (saveVideoStars [("u", 2)] "u" 3) "u" = 3 ∧
    (markVideoCompleted ⟨["u"], [("u", 2)]⟩ "u" 1).videoScores = [("u", 2)] ∧
    lookupScore (markVideoCompleted ⟨["u"], [("u", 2)]⟩ "u" 3).videoScores "u" = 3 :=
  ⟨claim_C7_monotonic.1 [("u", 2)] "u" 1 (by decide),
   claim_C7_monotonic.2.1 [("u", 2)] "u" 3 (by decide),
   claim_C7_monotonic.2.2.2.1 ⟨["u"], [("u", 2)]⟩ "u" 1 (by decide),
   claim_C7_monotonic.2.2.2.2 ⟨["u"], [("u", 2)]⟩ "u" 3 (by decide)⟩

/-- C9: starting a session at `t₁` and ending it at `t₂ ≥ t₁` with a reason
produces exactly one closed session row, with duration `t₂ − t₁ ≥ 0` and the
supplied reason, and clears the current-session pointer; ending a session when
none is open changes nothing. -/
theorem claim_C9_session (t1 t2 : Int) (reason : String) (h : t1 ≤ t2) :
    (endSession reason t2 (startSession t1 emptyTracker)).sessions =
      [{ id := 0, startedAt := t1, endedAt := some t2,
         durationMs := some (t2 - t1), endedReason := some reason }] ∧
    0 ≤ t2 - t1 ∧
    (endSession reason t2 (startSession t1 emptyTracker)).currentSessionId = none ∧
    (∀ s : TrackerState, s.currentSessionId = none → endSession reason t2 s = s) := by
  refine ⟨by simp [endSession, startSession, emptyTracker], by omega,
    by simp [endSession, startSession, emptyTracker], ?_⟩
  intro s hs
  rw [endSession, hs]

/-- Witness for C9: a session started at instant 3 and ended at instant 10
with reason `"normal"` is the single closed row with duration 7; an
`endSession` on the fresh tracker is a no-op. -/
theorem claim_C9_session_witness :
    (endSession "normal" 10 (startSession 3 emptyTracker)).sessions =
      [{ id := 0, startedAt := 3, endedAt := some 10,
         durationMs := some 7, endedReason := some "normal" }] ∧
    endSession "normal" 10 emptyTracker = emptyTracker :=
  ⟨(claim_C9_session 3 10 "normal" (by decide)).1,
   (claim_C9_session 3 10 "normal" (by decide)).2.2.2 emptyTracker rfl⟩

/-- C10: a stored gamification row whose `hearts` column is 0 is read back by
`getGamificationData` with `hearts = 20` (the `|| 20` falsy-coalescing
default), and `canUserPlay` consequently returns `true` for that participant
even though their stored hearts are exhausted. -/
theorem claim_C10_zero_hearts (today : Int) (r : GamRow)
    (h : r.hearts = some 0) :
    (getGamificationData (some r)).map (fun d => d.hearts) = some 20 ∧
    canUserPlay today (some r) = true := by
  constructor
  · simp [getGamificationData, jsOr, h]
  · cases hres : shouldResetHearts r.last_activity_date today <;>
      simp [canUserPlay, getGamificationData, checkAndResetDailyHearts,
        updateHearts, jsOr, h, hres]

/-- Witness for C10: a row with 0 stored hearts whose last activity is today's
label reads back as 20 hearts and is allowed to play (no reset even fires). -/
theorem claim_C10_zero_hearts_witness :
    (getGamificationData
        (some { xp := some 0, hearts := some 0, streak_days := some 1,
                last_activity_date := some 101 })).map (fun d => d.hearts) = some 20 ∧
    canUserPlay 101
      (some { xp := some 0, hearts := some 0, streak_days := some 1,
              last_activity_date := some 101 }) = true :=
  claim_C10_zero_hearts 101
    { xp := some 0, hearts := some 0, streak_days := some 1,
      last_activity_date := some 101 } rfl

/-- C1 is violated by the code: `checkAndResetDailyHearts` never stamps
`last_activity_date`, so on the same study day the reset condition keeps
holding.  Concretely (labels as day numbers, today = 101, stored last activity
= 100): the first call resets hearts 5 → 20; the reset condition still fires
on the result; and after one heart is deducted (hearts 19), a further
same-day call mutates the record again, restoring hearts = 20 — a second
reset within the same study-day transition. -/
theorem claim_C1_second_reset_fires :
    storedHearts (checkAndResetDailyHearts 101
      (some { xp := some 0, hearts := some 5, streak_days := some 3,
              last_activity_date := some 100 })) = some 20 ∧
    heartsResetFires 101 (checkAndResetDailyHearts 101
      (some { xp := some 0, hearts := some 5, streak_days := some 3,
              last_activity_date := some 100 })) = true ∧
    storedHearts (deductHeart (checkAndResetDailyHearts 101
      (some { xp := some 0, hearts := some 5, streak_days := some 3,
              last_activity_date := some 100 }))) = some 19 ∧
    storedHearts (checkAndResetDailyHearts 101 (deductHeart
      (checkAndResetDailyHearts 101
        (some { xp := some 0, hearts := some 5, streak_days := some 3,
                last_activity_date := some 100 })))) = some 20 := by
  decide

set_option maxRecDepth 10000

/-- C2 is violated by the code: iterating the heart-deduction operation from
a stored row with 20 hearts reaches 0 after 20 steps, but the 21st step reads
the stored 0 back as 20 (`hearts || 20`) and writes `max(0, 20 − 1) = 19`, so
21 deductions leave hearts = 19, not 0.  Hearts are indeed never negative at
any of the 21 steps. -/
theorem claim_C2_deduct_21 :
    storedHearts (deductIter 20
      (some { xp := some 0, hearts := some 20, streak_days := some 1,
              last_activity_date := some 100 })) = some 0 ∧
    storedHearts (deductIter 21
      (some { xp := some 0, hearts := some 20, streak_days := some 1,
              last_activity_date := some 100 })) = some 19 ∧
    ((List.range 22).all (fun k =>
      decide (0 ≤ (storedHearts (deductIter k
        (some { xp := some 0, hearts := some 20, streak_days := some 1,
                last_activity_date := some 100 }))).getD 0))) = true := by
  refine ⟨by decide, by decide, by decide⟩

/-- `v || 0` on a present value is the value itself (both branches agree at
0). -/
theorem jsOr_some_zero (x : Int) : jsOr (some x) 0 = x := by
  by_cases h : x = 0 <;> simp [jsOr, h]

/-- C3: the streak logic of `updateStreak` / the login sequence.  With no
stored record the login sequence creates one with `streakDays = 1`; a second
call on the same day-label is a no-op on the record; a call whose day-label is
exactly one past the stored `lastActivityDay` increments the streak by 1; and
a call two or more labels later, or with a negative day difference, resets the
streak to 1. -/
theorem claim_C3_streak (today : Int) :
    (checkStreakOnLogin today none =
      some { xp := some 0, hearts := some 20, streak_days := some 1,
             last_activity_date := some today } ∧
      storedStreak (checkStreakOnLogin today none) = 1) ∧
    (∀ row : Option GamRow, 0 ≤ storedStreak row →
      updateStreak today (updateStreak today row) = updateStreak today row) ∧
    (∀ (r : GamRow) (d : Int), r.last_activity_date = some d → today = d + 1 →
      storedStreak (updateStreak today (some r)) = jsOr r.streak_days 0 + 1) ∧
    (∀ (r : GamRow) (d : Int), r.last_activity_date = some d →
      (d + 1 < today ∨ today < d) →
      storedStreak (updateStreak today (some r)) = 1) := by
  refine ⟨⟨?_, ?_⟩, ?_, ?_, ?_⟩
  · simp [checkStreakOnLogin, checkAndResetDailyHearts, getGamificationData,
      updateStreak]
  · simp [checkStreakOnLogin, checkAndResetDailyHearts, getGamificationData,
      updateStreak, storedStreak, jsOr_some_zero]
  · intro row h0
    match row with
    | none => simp [updateStreak, jsOr_some_zero]
    | some r =>
      simp only [storedStreak] at h0
      by_cases hs0 : jsOr r.streak_days 0 = 0
      · simp [updateStreak, writeStreak, jsOr_some_zero, hs0]
      · rcases hl : r.last_activity_date with _ | d
        · simp [updateStreak, writeStreak, jsOr_some_zero, hs0, hl]
        · by_cases hd0 : today - d = 0
          · have ht : today = d := by omega
            simp [updateStreak, writeStreak, jsOr_some_zero, hs0, hl, ht]
          · by_cases hd1 : today - d = 1
            · have hs1 : jsOr r.streak_days 0 + 1 ≠ 0 := by omega
              simp [updateStreak, writeStreak, jsOr_some_zero, hs0, hl,
                hd0, hd1, hs1]
            · simp [updateStreak, writeStreak, jsOr_some_zero, hs0, hl,
                hd0, hd1]
  · intro r d hl hd
    have hdiff : today - d = 1 := by omega
    have hne0 : ¬(today - d = 0) := by omega
    by_cases hs0 : jsOr r.streak_days 0 = 0
    · simp [updateStreak, writeStreak, storedStreak, jsOr_some_zero, hs0, hl]
    · simp [updateStreak, writeStreak, storedStreak, jsOr_some_zero, hs0, hl,
        hne0, hdiff]
  · intro r d hl hcase
    have hne0 : ¬(today - d = 0) := by omega
    have hne1 : ¬(today - d = 1) := by omega
    by_cases hs0 : jsOr r.streak_days 0 = 0
    · simp [updateStreak, writeStreak, storedStreak, jsOr_some_zero, hs0, hl]
    · simp [updateStreak, writeStreak, storedStreak, jsOr_some_zero, hs0, hl,
        hne0, hne1]

/-- Witness for C3: day labels as integers, today = 101.  A login with no
record creates streak 1; a second same-day call on that record is a no-op; a
record last active on day 100 increments its streak 3 → 4; records last
active on day 98 (gap 3) or day 103 (negative difference) reset to 1. -/
theorem claim_C3_streak_witness :
    checkStreakOnLogin 101 none =
      some { xp := some 0, hearts := some 20, streak_days := some 1,
             last_activity_date := some 101 } ∧
    updateStreak 101 (updateStreak 101
      (some { xp := some 0, hearts := some 5, streak_days := some 3,
              last_activity_date := some 100 })) =
      updateStreak 101
        (some { xp := some 0, hearts := some 5, streak_days := some 3,
                last_activity_date := some 100 }) ∧
    storedStreak (updateStreak 101
      (some { xp := some 0, hearts := some 5, streak_days := some 3,
              last_activity_date := some 100 })) = 4 ∧
    storedStreak (updateStreak 101
      (some { xp := some 0, hearts := some 5, streak_days := some 3,
              last_activity_date := some 98 })) = 1 ∧
    storedStreak (updateStreak 101
      (some { xp := some 0, hearts := some 5, streak_days := some 3,
              last_activity_date := some 103 })) = 1 := by
  refine ⟨(claim_C3_streak 101).1.1, ?_, ?_, ?_, ?_⟩
  · exact (claim_C3_streak 101).2.1
      (some { xp := some 0, hearts := some 5, streak_days := some 3,
              last_activity_date := some 100 }) (by decide)
  · have := (claim_C3_streak 101).2.2.1
      { xp := some 0, hearts := some 5, streak_days := some 3,
        last_activity_date := some 100 } 100 rfl (by decide)
    simpa [jsOr] using this
  · exact (claim_C3_streak 101).2.2.2
      { xp := some 0, hearts := some 5, streak_days := some 3,
        last_activity_date := some 98 } 98 rfl (by decide)
  · exact (claim_C3_streak 101).2.2.2
      { xp := some 0, hearts := some 5, streak_days := some 3,
        last_activity_date := some 103 } 103 rfl (by decide)
